import Mathlib

set_option autoImplicit false
set_option maxRecDepth 40000

/-!
Verification of the market_stddev pipeline (S&P 500 standard-deviation monitor).

The computation is embedded from the notebook source (src/erase.ipynb):
fetch closes, drop nulls, compute 200-sample rolling mean and rolling sample
standard deviation, derive the current deviation-in-sigma of the latest price,
classify it with a chained threshold comparison, and build a JSON record.

Python / numpy floating-point scalars are modelled by `FP`: either NaN, a signed
infinity, or a finite value represented exactly as a rational. All comparisons
follow IEEE semantics (every comparison with NaN is false); division by a zero
divisor yields NaN (for a zero dividend) or a signed infinity. The floating
square root is modelled by `Rat.sqrt`, which is exact on perfect squares; no
claim settled here depends on the value of a square root of a non-square.
-/

namespace MarketStddev

/-- A Python/numpy float value: NaN, a signed infinity (`inf true` is plus
infinity), or a finite value modelled exactly as a rational. -/
inductive FP where
  | nan : FP
  | inf : Bool → FP
  | fin : ℚ → FP
  deriving DecidableEq, Repr

/-- IEEE less-or-equal as a Bool: every comparison involving NaN is false. -/
def FP.le : FP → FP → Bool
  | .nan, _ => false
  | _, .nan => false
  | .fin a, .fin b => decide (a ≤ b)
  | .inf s, .fin _ => !s
  | .fin _, .inf s => s
  | .inf a, .inf b => !a || b

/-- IEEE strict less-than, derived from `FP.le`. -/
def FP.lt (x y : FP) : Bool := FP.le x y && !(FP.le y x)

/-- Absolute value: NaN stays NaN, infinities map to plus infinity. -/
def FP.abs : FP → FP
  | .nan => .nan
  | .inf _ => .inf true
  | .fin a => .fin |a|

/-- Subtraction with IEEE special values (same-signed infinities give NaN). -/
def FP.sub : FP → FP → FP
  | .nan, _ => .nan
  | _, .nan => .nan
  | .fin a, .fin b => .fin (a - b)
  | .inf s, .fin _ => .inf s
  | .fin _, .inf s => .inf (!s)
  | .inf a, .inf b => if a = b then .nan else .inf a

/-- Division with IEEE special values: a finite value divided by zero is NaN
when the dividend is zero and a signed infinity otherwise (numpy semantics
for float64, as in the notebook's `std_away` computation). -/
def FP.div : FP → FP → FP
  | .nan, _ => .nan
  | _, .nan => .nan
  | .fin a, .fin b =>
      if b = 0 then (if a = 0 then .nan else .inf (decide (0 < a)))
      else .fin (a / b)
  | .inf s, .fin b => if b < 0 then .inf (!s) else .inf s
  | .fin _, .inf _ => .fin 0
  | .inf _, .inf _ => .nan

/-- The three status tiers rendered by the notebook (the emoji decorations of
the source strings are dropped; only the tier matters to the claims). -/
inductive Status where
  | NORMAL : Status
  | ALERT : Status
  | EXTREME : Status
  deriving DecidableEq, Repr

/-- Direction of the deviation relative to the moving average. -/
inductive Direction where
  | above : Direction
  | below : Direction
  deriving DecidableEq, Repr

/-- Status classification from src/erase.ipynb:
`abs_std = abs(std_away)`; `if 2.0 <= abs_std <= 3.0: ALERT`
`elif abs_std < 2.0: NORMAL` `else: EXTREME`. The Python chained comparison
is the conjunction of the two comparisons. -/
def statusOf (std_away : FP) : Status :=
  let abs_std := std_away.abs
  if FP.le (.fin 2) abs_std && FP.le abs_std (.fin 3) then .ALERT
  else if FP.lt abs_std (.fin 2) then .NORMAL
  else .EXTREME

/-- Direction from src/erase.ipynb: `"above" if std_away > 0 else "below"`. -/
def directionOf (std_away : FP) : Direction :=
  if FP.lt (.fin 0) std_away then .above else .below

/-- Alert flag from src/erase.ipynb's JSON record: `2.0 <= abs_std <= 3.0`. -/
def alertOf (std_away : FP) : Bool :=
  FP.le (.fin 2) std_away.abs && FP.le std_away.abs (.fin 3)

/-- Arithmetic mean of a list of rationals (rational division; the pipeline
only applies it to windows of exactly 200 samples). -/
def mean (l : List ℚ) : ℚ := l.sum / (l.length : ℚ)

/-- Sample variance with ddof = 1 (the pandas `.std()` default), as a
rational. The pipeline only applies it to windows of exactly 200 samples, so
the `length - 1` divisor is never zero in any reachable call. -/
def sampleVar (l : List ℚ) : ℚ :=
  (l.map (fun x => (x - mean l) ^ 2)).sum / ((l.length : ℚ) - 1)

/-- Sample standard deviation: square root of `sampleVar`, with `Rat.sqrt`
standing in for the floating square root (exact on perfect squares, in
particular at zero). -/
def sampleStd (l : List ℚ) : ℚ := Rat.sqrt (sampleVar l)

/-- Pandas `Series.rolling(window=w)` followed by an aggregation `f`
(with the default `min_periods = w`): position `i` of the result is NaN
(`none`) while fewer than `w` samples are available, and otherwise `f`
applied to the `w` samples ending at and including position `i`. -/
def rollingApply (f : List ℚ → ℚ) (w : ℕ) (xs : List ℚ) : List (Option ℚ) :=
  (List.range xs.length).map fun i =>
    if i + 1 < w then none
    else some (f ((xs.take (i + 1)).drop (i + 1 - w)))

/-- The notebook's `ma_200 = closes.rolling(window=200).mean()`,
generalised over the window length. -/
def rollingMean (w : ℕ) (xs : List ℚ) : List (Option ℚ) :=
  rollingApply mean w xs

/-- The notebook's `std_200 = closes.rolling(window=200).std()`,
generalised over the window length. -/
def rollingStd (w : ℕ) (xs : List ℚ) : List (Option ℚ) :=
  rollingApply sampleStd w xs

/-- Failure conditions of one run. `indexError` is the uncaught exception
raised by `closes.iloc[-1]` on an empty series; `fetchError` is an uncaught
exception from the network fetch itself. Both abort the process. -/
inductive PipeError where
  | indexError : PipeError
  | fetchError : PipeError
  deriving DecidableEq, Repr

/-- The fields of the notebook's `data_json` record (the generation timestamp
is omitted: no claim mentions it). -/
structure Report where
  current_price : ℚ
  ma_200 : FP
  std_200 : FP
  std_away : FP
  status : Status
  direction : Direction
  alert : Bool
  deriving DecidableEq, Repr

/-- Reading the last entry of a rolling-statistics series as a float:
a `none` entry is pandas NaN. The outer `Option` (empty list) also maps to
NaN, but the pipeline only reads it on a nonempty series. -/
def lastAsFP : Option (Option ℚ) → FP
  | some (some q) => .fin q
  | some none => .nan
  | none => .nan

/-- The computation of src/erase.ipynb on an already-fetched raw close
series (entries `none` are nulls). In order: `closes = sp500[Close].dropna()`
(here `List.filterMap id`), the two rolling statistics, `iloc[-1]` of each
(raising IndexError when `closes` is empty), `std_away = (current_price -
current_ma) / current_std`, the status classification, the direction, and the
`data_json` record. There is no other failure path: the notebook has no
handling for short histories or for a zero standard deviation. -/
def runPipeline (raw : List (Option ℚ)) : Except PipeError Report :=
  let closes := raw.filterMap id
  match closes.getLast? with
  | none => .error .indexError
  | some current_price =>
    let ma_200 := rollingMean 200 closes
    let std_200 := rollingStd 200 closes
    let current_ma := lastAsFP ma_200.getLast?
    let current_std := lastAsFP std_200.getLast?
    let std_away := FP.div (FP.sub (.fin current_price) current_ma) current_std
    .ok
      { current_price := current_price
        ma_200 := current_ma
        std_200 := current_std
        std_away := std_away
        status := statusOf std_away
        direction := directionOf std_away
        alert := alertOf std_away }

/-- A whole run starting from the fetch: an errored network call is an
uncaught exception, propagated as `fetchError`; otherwise the notebook
computation runs on the returned raw series. -/
def runFetched : Except Unit (List (Option ℚ)) → Except PipeError Report
  | .error _ => .error .fetchError
  | .ok raw => runPipeline raw

/-- Modelled from the spec: the artifact-writing half of the pipeline lives in
sp500_monitor.py, which the workflow invokes but which is absent from the
sources. Per the spec, the script writes the two fixed-named artifact files
exactly when the computation succeeds: no partial or degraded output, either a
complete artifact pair or none. -/
def artifactFiles (fetched : Except Unit (List (Option ℚ))) : List String :=
  match runFetched fetched with
  | .ok _ => ["sp500_dashboard.html", "sp500_analysis.json"]
  | .error _ => []

/-- Modelled from the spec: the process exit status of sp500_monitor.py
(absent from the sources) is zero on successful artifact generation and
non-zero on any fetch or computation failure. -/
def exitCode (fetched : Except Unit (List (Option ℚ))) : Nat :=
  match runFetched fetched with
  | .ok _ => 0
  | .error _ => 1

/-- What the scheduled job serves as the site index. -/
inductive DeployedIndex where
  | dashboard : DeployedIndex
  | fallbackErrorPage : DeployedIndex
  deriving DecidableEq, Repr

/-- The deploy step of src/unnamed/part_000: the generated files are copied
to the deployment directory; index.html is a copy of sp500_dashboard.html
when that file exists, and otherwise a generated fallback error page
("Dashboard Error"). The analysis step's failure never stops the job (its
exit status is swallowed by `|| echo`), so deployment always runs. -/
def deployIndex (files : List String) : DeployedIndex :=
  if "sp500_dashboard.html" ∈ files then .dashboard else .fallbackErrorPage

/-- Classifier written from the words of the spec (section 4.3), for the
refinement claim about the thresholds: abs < 2.0 is NORMAL, 2.0 ≤ abs ≤ 3.0
is ALERT (inclusive on both bounds), abs > 3.0 is EXTREME. To be compared
with `statusOf`, which is translated from the source. -/
def specClassify (x : ℚ) : Status :=
  if |x| < 2 then .NORMAL
  else if 2 ≤ |x| ∧ |x| ≤ 3 then .ALERT
  else .EXTREME

/-! ### Helper lemmas -/

theorem FP.lt_fin_fin (a b : ℚ) : FP.lt (.fin a) (.fin b) = decide (a < b) := by
  rcases lt_trichotomy a b with h | h | h <;>
    simp [FP.lt, FP.le, h, h.le, h.not_lt, le_of_lt, le_refl]

theorem statusOf_fin (q : ℚ) :
    statusOf (.fin q) =
      if 2 ≤ |q| ∧ |q| ≤ 3 then .ALERT
      else if |q| < 2 then .NORMAL
      else .EXTREME := by
  have habs : (FP.fin q).abs = .fin |q| := rfl
  simp only [statusOf, habs, FP.lt_fin_fin]
  simp [FP.le, Bool.and_eq_true, decide_eq_true_eq]

theorem alertOf_fin (q : ℚ) :
    alertOf (.fin q) = decide (2 ≤ |q| ∧ |q| ≤ 3) := by
  have habs : (FP.fin q).abs = .fin |q| := rfl
  simp [alertOf, habs, FP.le, Bool.and_eq_true, decide_eq_true_eq]

theorem alertOf_iff_statusOf (x : FP) : alertOf x = true ↔ statusOf x = .ALERT := by
  cases x with
  | nan => decide
  | inf s => cases s <;> decide
  | fin q =>
      rw [alertOf_fin, statusOf_fin]
      by_cases h : 2 ≤ |q| ∧ |q| ≤ 3
      · simp [h]
      · by_cases h2 : |q| < 2 <;> simp [h, h2]

theorem rollingApply_length (f : List ℚ → ℚ) (w : ℕ) (xs : List ℚ) :
    (rollingApply f w xs).length = xs.length := by
  simp [rollingApply]

theorem rollingApply_getElem? (f : List ℚ → ℚ) (w : ℕ) (xs : List ℚ) (i : ℕ)
    (hi : i < xs.length) :
    (rollingApply f w xs)[i]? =
      some (if i + 1 < w then none
            else some (f ((xs.take (i + 1)).drop (i + 1 - w)))) := by
  simp [rollingApply, List.getElem?_map, List.getElem?_range hi]

theorem rollingApply_getLast?_short (f : List ℚ → ℚ) (w : ℕ) (xs : List ℚ)
    (hne : xs ≠ []) (hshort : xs.length < w) :
    (rollingApply f w xs).getLast? = some none := by
  have hpos : 0 < xs.length := List.length_pos.mpr hne
  rw [List.getLast?_eq_getElem?, rollingApply_length,
    rollingApply_getElem? f w xs _ (by omega), if_pos (by omega)]

theorem rollingApply_getLast?_long (f : List ℚ → ℚ) (w : ℕ) (xs : List ℚ)
    (hw : 0 < w) (hlen : w ≤ xs.length) :
    (rollingApply f w xs).getLast? =
      some (some (f (xs.drop (xs.length - w)))) := by
  have hpos : 0 < xs.length := by omega
  rw [List.getLast?_eq_getElem?, rollingApply_length,
    rollingApply_getElem? f w xs _ (by omega), if_neg (by omega)]
  have h1 : xs.length - 1 + 1 = xs.length := by omega
  rw [h1, List.take_length]

theorem mean_const (l : List ℚ) (c : ℚ) (hne : l ≠ [])
    (h : ∀ x ∈ l, x = c) : mean l = c := by
  have hrep : l = List.replicate l.length c := List.eq_replicate_length.mpr h
  have h0 : (l.length : ℚ) ≠ 0 := by
    have := List.length_pos.mpr hne
    exact_mod_cast Nat.pos_iff_ne_zero.mp this
  rw [mean, hrep]
  simp only [List.sum_replicate, List.length_replicate, nsmul_eq_mul]
  exact mul_div_cancel_left₀ c h0

theorem sampleVar_const (l : List ℚ) (c : ℚ) (hne : l ≠ [])
    (h : ∀ x ∈ l, x = c) : sampleVar l = 0 := by
  have hm := mean_const l c hne h
  have hz : (l.map (fun x => (x - mean l) ^ 2)).sum = 0 := by
    apply List.sum_eq_zero
    intro y hy
    obtain ⟨x, hx, rfl⟩ := List.mem_map.mp hy
    rw [h x hx, hm, sub_self]
    ring
  rw [sampleVar, hz, zero_div]

theorem sampleStd_const (l : List ℚ) (c : ℚ) (hne : l ≠ [])
    (h : ∀ x ∈ l, x = c) : sampleStd l = 0 := by
  rw [sampleStd, sampleVar_const l c hne h]
  decide

theorem runPipeline_const (raw : List (Option ℚ)) (c : ℚ)
    (h200 : 200 ≤ (raw.filterMap id).length)
    (hconst : ∀ x ∈ (raw.filterMap id).drop ((raw.filterMap id).length - 200),
      x = c) :
    runPipeline raw =
      .ok ⟨c, .fin c, .fin 0, .nan, .EXTREME, .below, false⟩ := by
  set closes := raw.filterMap id with hcl
  set tail := closes.drop (closes.length - 200) with htl
  have hlen : tail.length = 200 := by
    rw [htl, List.length_drop]
    omega
  have htne : tail ≠ [] := by
    intro h0
    rw [h0] at hlen
    exact absurd hlen (by decide)
  have hlast : closes.getLast? = some c := by
    rw [List.getLast?_eq_getElem?]
    have hidx : closes.length - 200 + 199 = closes.length - 1 := by omega
    have he : closes[closes.length - 1]? = tail[199]? := by
      rw [htl, List.getElem?_drop, hidx]
    rw [he, List.getElem?_eq_getElem (by omega)]
    exact congrArg some (hconst _ (List.getElem_mem _))
  have hma : (rollingMean 200 closes).getLast? = some (some (mean tail)) := by
    rw [rollingMean, rollingApply_getLast?_long mean 200 closes (by omega)
      (by omega), ← htl]
  have hstd : (rollingStd 200 closes).getLast? =
      some (some (sampleStd tail)) := by
    rw [rollingStd, rollingApply_getLast?_long sampleStd 200 closes (by omega)
      (by omega), ← htl]
  have hmc : mean tail = c := mean_const tail c htne hconst
  have hsc : sampleStd tail = 0 := sampleStd_const tail c htne hconst
  rw [hmc] at hma
  rw [hsc] at hstd
  simp only [runPipeline, ← hcl, hlast, hma, hstd, lastAsFP, FP.sub, sub_self,
    FP.div, statusOf, directionOf, alertOf]
  simp [FP.abs, FP.le, FP.lt]

theorem runPipeline_ok_fields (raw : List (Option ℚ)) (r : Report)
    (h : runPipeline raw = .ok r) :
    r.status = statusOf r.std_away ∧ r.direction = directionOf r.std_away ∧
    r.alert = alertOf r.std_away := by
  cases hl : (raw.filterMap id).getLast? with
  | none =>
      simp only [runPipeline, hl] at h
      exact Except.noConfusion h
  | some p =>
      simp only [runPipeline, hl] at h
      cases h
      exact ⟨rfl, rfl, rfl⟩

/-! ### Claim theorems -/

/-- C3: the status classifier agrees with the spec thresholds on every real
(rational) sigma-deviation — NORMAL strictly below 2, ALERT between 2 and 3
inclusive on both bounds, EXTREME strictly above 3 — and takes the stated
values at 2.0, 1.999, 3.0, 3.0001 and -2.5 (the latter with direction
below). -/
theorem classifier_thresholds :
    (∀ x : ℚ, statusOf (.fin x) = specClassify x) ∧
    statusOf (.fin 2) = .ALERT ∧
    statusOf (.fin (1999 / 1000)) = .NORMAL ∧
    statusOf (.fin 3) = .ALERT ∧
    statusOf (.fin (30001 / 10000)) = .EXTREME ∧
    statusOf (.fin (-5 / 2)) = .ALERT ∧
    directionOf (.fin (-5 / 2)) = .below := by
  refine ⟨fun x => ?_,
    by rw [statusOf_fin, abs_of_pos (show (0:ℚ) < 2 by norm_num)]; norm_num,
    by rw [statusOf_fin, abs_of_pos (show (0:ℚ) < 1999 / 1000 by norm_num)]; norm_num,
    by rw [statusOf_fin, abs_of_pos (show (0:ℚ) < 3 by norm_num)]; norm_num,
    by rw [statusOf_fin, abs_of_pos (show (0:ℚ) < 30001 / 10000 by norm_num)]; norm_num,
    by rw [statusOf_fin, abs_of_neg (show (-5 / 2 : ℚ) < 0 by norm_num)]; norm_num,
    by simp only [directionOf, FP.lt_fin_fin]; norm_num⟩
  rcases lt_or_le |x| 2 with h1 | h1
  · have h2 : ¬(2 ≤ |x| ∧ |x| ≤ 3) := fun h => absurd h.1 h1.not_le
    simp [statusOf_fin, specClassify, h1, h2]
  · rcases le_or_lt |x| 3 with h3 | h3
    · have h2 : 2 ≤ |x| ∧ |x| ≤ 3 := ⟨h1, h3⟩
      simp [statusOf_fin, specClassify, h2, not_lt.mpr h1]
    · have h2 : ¬(2 ≤ |x| ∧ |x| ≤ 3) := fun h => absurd h.2 h3.not_le
      simp [statusOf_fin, specClassify, h2, not_lt.mpr h1]

/-- C6: direction is above exactly when the signed sigma-deviation is
strictly positive, and a deviation of exactly zero is classified below. -/
theorem direction_above_iff_positive :
    (∀ x : ℚ, directionOf (.fin x) = .above ↔ 0 < x) ∧
    directionOf (.fin 0) = .below := by
  refine ⟨fun x => ?_, by decide⟩
  by_cases h : 0 < x <;> simp [directionOf, FP.lt_fin_fin, h]

/-- C10: the classifier is total on NaN — both chained comparisons of the
source are false on a NaN sigma-deviation, which is therefore classified
EXTREME with direction below and alert false — and the computation succeeds
on every series with a nonempty close sequence (so, per the spec-modelled
writer, both artifacts are written and the exit status is zero), never
failing on a NaN statistic. -/
theorem nan_classifier_total :
    (FP.le (.fin 2) (FP.abs .nan) && FP.le (FP.abs .nan) (.fin 3)) = false ∧
    FP.lt (FP.abs .nan) (.fin 2) = false ∧
    statusOf .nan = .EXTREME ∧ directionOf .nan = .below ∧ alertOf .nan = false ∧
    ∀ raw : List (Option ℚ), raw.filterMap id ≠ [] →
      (runPipeline raw).isOk = true ∧
      artifactFiles (.ok raw) = ["sp500_dashboard.html", "sp500_analysis.json"] ∧
      exitCode (.ok raw) = 0 := by
  refine ⟨rfl, rfl, rfl, rfl, rfl, fun raw hne => ?_⟩
  obtain ⟨p, hp⟩ : ∃ p, (raw.filterMap id).getLast? = some p := by
    cases hl : (raw.filterMap id).getLast? with
    | none => exact absurd (List.getLast?_eq_none_iff.mp hl) hne
    | some p => exact ⟨p, rfl⟩
  have hok : (runPipeline raw).isOk = true := by
    simp only [runPipeline, hp]
    rfl
  cases hr : runPipeline raw with
  | error e => rw [hr] at hok; cases hok
  | ok r =>
      exact ⟨rfl, by simp [artifactFiles, runFetched, hr],
        by simp [exitCode, runFetched, hr]⟩

/-- Witness for the C10 theorem: a concrete series whose close sequence is
nonempty but far too short for the rolling window, so every statistic is NaN,
yet the run succeeds and both artifacts are produced. -/
theorem nan_classifier_total_witness :
    ([none, some (7:ℚ)].filterMap id ≠ []) ∧
    ((runPipeline [none, some (7:ℚ)]).isOk = true ∧
      artifactFiles (.ok [none, some (7:ℚ)]) =
        ["sp500_dashboard.html", "sp500_analysis.json"] ∧
      exitCode (.ok [none, some (7:ℚ)]) = 0) :=
  ⟨by decide, nan_classifier_total.2.2.2.2.2 [none, some (7:ℚ)] (by decide)⟩

/-- C4: round-trip — re-applying the status classifier to the std_away field
of any produced record reproduces exactly the status and alert values stored
in that same record. -/
theorem artifact_roundtrip (raw : List (Option ℚ)) (r : Report)
    (h : runPipeline raw = .ok r) :
    statusOf r.std_away = r.status ∧ alertOf r.std_away = r.alert := by
  obtain ⟨h1, _, h3⟩ := runPipeline_ok_fields raw r h
  exact ⟨h1.symm, h3.symm⟩

/-- Witness for the C4 theorem at the one-sample series with close 2: the
produced record has a NaN std_away, and the classifier applied to it gives
back the stored EXTREME status and false alert. -/
theorem artifact_roundtrip_witness :
    statusOf FP.nan = Status.EXTREME ∧ alertOf FP.nan = false :=
  artifact_roundtrip [some (2:ℚ)]
    ⟨2, .nan, .nan, .nan, .EXTREME, .below, false⟩ (by rfl)

/-- C5: in every produced record the alert boolean is true exactly when the
status field is the ALERT tier (so it is false for both NORMAL and
EXTREME). -/
theorem artifact_alert_iff_alert_tier (raw : List (Option ℚ)) (r : Report)
    (h : runPipeline raw = .ok r) : r.alert = true ↔ r.status = .ALERT := by
  obtain ⟨h1, _, h3⟩ := runPipeline_ok_fields raw r h
  rw [h1, h3]
  exact alertOf_iff_statusOf r.std_away

/-- Witness for the C5 theorem at the one-sample series with close 1: the
produced record has alert false and status EXTREME, and the equivalence is
the one between those two concrete fields. -/
theorem artifact_alert_iff_alert_tier_witness :
    ((⟨1, .nan, .nan, .nan, .EXTREME, .below, false⟩ : Report).alert = true ↔
      (⟨1, .nan, .nan, .nan, .EXTREME, .below, false⟩ : Report).status = .ALERT) :=
  artifact_alert_iff_alert_tier [some (1:ℚ)]
    ⟨1, .nan, .nan, .nan, .EXTREME, .below, false⟩ (by rfl)

/-- C8: when the fetch errors, or returns a series whose non-null part is
empty, the run fails (an uncaught exception: the propagated fetch error, or
the IndexError raised by iloc on the empty close sequence), no artifact file
is written, and the exit status is non-zero. -/
theorem data_unavailable_fatal (fetched : Except Unit (List (Option ℚ)))
    (h : ∀ raw, fetched = .ok raw → raw.filterMap id = []) :
    (runFetched fetched).isOk = false ∧ artifactFiles fetched = [] ∧
    exitCode fetched = 1 := by
  cases fetched with
  | error e => exact ⟨rfl, rfl, rfl⟩
  | ok raw =>
      have h0 : raw.filterMap id = [] := h raw rfl
      have hrun : runPipeline raw = .error .indexError := by
        simp only [runPipeline, h0, List.getLast?_nil]
      refine ⟨?_, ?_, ?_⟩ <;>
        simp [runFetched, artifactFiles, exitCode, hrun, Except.isOk,
          Except.toBool]

/-- Witness for the C8 theorem at a concrete all-null two-day series. -/
theorem data_unavailable_fatal_witness :
    (runFetched (.ok ([none, none] : List (Option ℚ)))).isOk = false ∧
    artifactFiles (.ok ([none, none] : List (Option ℚ))) = [] ∧
    exitCode (.ok ([none, none] : List (Option ℚ))) = 1 :=
  data_unavailable_fatal (.ok [none, none])
    (fun raw hr => by injection hr with h2; subst h2; rfl)

/-- C9: when the run exits with a non-zero status, no dashboard file exists,
so the scheduled job (whose analysis step swallows the failure and always
proceeds to deploy) publishes its generated fallback error page as the site
index rather than deploying a dashboard. -/
theorem failed_run_not_deployed (fetched : Except Unit (List (Option ℚ)))
    (h : exitCode fetched ≠ 0) :
    deployIndex (artifactFiles fetched) = .fallbackErrorPage := by
  cases hr : runFetched fetched with
  | ok r => exact absurd (by simp [exitCode, hr]) h
  | error e =>
      have h0 : artifactFiles fetched = [] := by simp [artifactFiles, hr]
      rw [h0]
      decide

/-- C1 counterexample: on a concrete 10-sample series — fewer than 200
samples — the pipeline does not fail with any insufficient-history condition:
the rolling statistics are NaN, the run succeeds with a NaN sigma-deviation,
and (per the spec-modelled writer) both output files are produced. -/
theorem short_history_counterexample :
    runPipeline [some (1:ℚ), some 2, some 3, some 4, some 5, some 6, some 7,
        some 8, some 9, some 10] =
      .ok ⟨10, .nan, .nan, .nan, .EXTREME, .below, false⟩ ∧
    artifactFiles (.ok [some (1:ℚ), some 2, some 3, some 4, some 5, some 6,
        some 7, some 8, some 9, some 10]) =
      ["sp500_dashboard.html", "sp500_analysis.json"] ∧
    exitCode (.ok [some (1:ℚ), some 2, some 3, some 4, some 5, some 6, some 7,
        some 8, some 9, some 10]) = 0 :=
  ⟨rfl, rfl, rfl⟩

/-- C1 (amended): for every input whose non-null close series is nonempty but
holds fewer than 200 samples, the rolling statistics are entirely undefined
(NaN) — yet the pipeline does not fail: it returns the report with a NaN
sigma-deviation classified EXTREME (direction below, alert false), and both
artifact files are written with exit status zero. Only an empty close series
makes the run fail (with an IndexError, not an InsufficientHistory
condition). -/
theorem short_history_no_failure (raw : List (Option ℚ)) (p : ℚ)
    (hp : (raw.filterMap id).getLast? = some p)
    (hshort : (raw.filterMap id).length < 200) :
    runPipeline raw = .ok ⟨p, .nan, .nan, .nan, .EXTREME, .below, false⟩ ∧
    artifactFiles (.ok raw) = ["sp500_dashboard.html", "sp500_analysis.json"] ∧
    exitCode (.ok raw) = 0 := by
  have hne : raw.filterMap id ≠ [] := by
    intro h0
    rw [h0] at hp
    exact Option.noConfusion hp
  have hma := rollingApply_getLast?_short mean 200 _ hne hshort
  have hstd := rollingApply_getLast?_short sampleStd 200 _ hne hshort
  have hrun : runPipeline raw =
      .ok ⟨p, .nan, .nan, .nan, .EXTREME, .below, false⟩ := by
    simp only [runPipeline, hp, rollingMean, rollingStd, hma, hstd]
    rfl
  exact ⟨hrun, by simp [artifactFiles, runFetched, hrun],
    by simp [exitCode, runFetched, hrun]⟩

/-- Witness for the C1 theorem at the one-sample series with close 3. -/
theorem short_history_no_failure_witness :
    runPipeline [some (3:ℚ)] =
      .ok ⟨3, .nan, .nan, .nan, .EXTREME, .below, false⟩ ∧
    artifactFiles (.ok [some (3:ℚ)]) =
      ["sp500_dashboard.html", "sp500_analysis.json"] ∧
    exitCode (.ok [some (3:ℚ)]) = 0 :=
  short_history_no_failure [some 3] 3 (by rfl) (by decide)

/-- C2 counterexample: on the spec's own example input — a 250-day flat
series at price 5 — the trailing 200-sample standard deviation is zero, yet
the pipeline does not fail with any undefined-statistic condition: it emits
the report, whose sigma-deviation is NaN (0/0), and both artifact files are
produced. -/
theorem flat_series_counterexample :
    runPipeline (List.replicate 250 (some (5:ℚ))) =
      .ok ⟨5, .fin 5, .fin 0, .nan, .EXTREME, .below, false⟩ ∧
    artifactFiles (.ok (List.replicate 250 (some (5:ℚ)))) =
      ["sp500_dashboard.html", "sp500_analysis.json"] := by
  have hrun := runPipeline_const (List.replicate 250 (some (5:ℚ))) 5
    (by decide) (by decide)
  refine ⟨hrun, ?_⟩
  simp only [artifactFiles, runFetched]
  rw [hrun]

/-- C2 (amended): for every input whose non-null close series has at least
200 samples, all equal over the trailing 200-sample window, the current
standard deviation is exactly zero — and the pipeline does not fail: the
division 0/0 yields NaN, the report is emitted with a NaN sigma-deviation
classified EXTREME (alert false), and both artifacts are written with exit
status zero. -/
theorem flat_series_nan_report (raw : List (Option ℚ)) (c : ℚ)
    (h200 : 200 ≤ (raw.filterMap id).length)
    (hconst : ∀ x ∈ (raw.filterMap id).drop ((raw.filterMap id).length - 200),
      x = c) :
    runPipeline raw =
      .ok ⟨c, .fin c, .fin 0, .nan, .EXTREME, .below, false⟩ ∧
    artifactFiles (.ok raw) = ["sp500_dashboard.html", "sp500_analysis.json"] ∧
    exitCode (.ok raw) = 0 := by
  have hrun := runPipeline_const raw c h200 hconst
  exact ⟨hrun, by simp [artifactFiles, runFetched, hrun],
    by simp [exitCode, runFetched, hrun]⟩

/-- Witness for the C2 theorem at a concrete 200-day flat series at price
5. -/
theorem flat_series_nan_report_witness :
    runPipeline (List.replicate 200 (some (5:ℚ))) =
      .ok ⟨5, .fin 5, .fin 0, .nan, .EXTREME, .below, false⟩ ∧
    artifactFiles (.ok (List.replicate 200 (some (5:ℚ)))) =
      ["sp500_dashboard.html", "sp500_analysis.json"] ∧
    exitCode (.ok (List.replicate 200 (some (5:ℚ)))) = 0 :=
  flat_series_nan_report (List.replicate 200 (some (5:ℚ))) 5
    (by decide) (by decide)

/-- C7: for any series of at least 200 samples, the rolling statistics are
undefined (none, the embedding of pandas NaN — not zero) at each of the
first 199 positions, and at every position i from 199 on they are the mean
and sample standard deviation of the window of exactly the 200 samples
ending at and including position i: the window has length 200 and its j-th
entry is the sample at position i - 199 + j. -/
theorem rolling_stats_alignment (xs : List ℚ) (hlen : 200 ≤ xs.length)
    (i : ℕ) :
    (i < 199 → (rollingMean 200 xs)[i]? = some none ∧
      (rollingStd 200 xs)[i]? = some none) ∧
    (199 ≤ i → i < xs.length →
      ((xs.take (i + 1)).drop (i + 1 - 200)).length = 200 ∧
      (∀ j, j < 200 →
        ((xs.take (i + 1)).drop (i + 1 - 200))[j]? = xs[i + 1 - 200 + j]?) ∧
      (rollingMean 200 xs)[i]? =
        some (some (mean ((xs.take (i + 1)).drop (i + 1 - 200)))) ∧
      (rollingStd 200 xs)[i]? =
        some (some (sampleStd ((xs.take (i + 1)).drop (i + 1 - 200))))) := by
  constructor
  · intro hi
    have hix : i < xs.length := by omega
    constructor
    · rw [rollingMean, rollingApply_getElem? mean 200 xs i hix,
        if_pos (by omega)]
    · rw [rollingStd, rollingApply_getElem? sampleStd 200 xs i hix,
        if_pos (by omega)]
  · intro h199 hix
    refine ⟨?_, ?_, ?_, ?_⟩
    · rw [List.length_drop, List.length_take]
      omega
    · intro j hj
      rw [List.getElem?_drop, List.getElem?_take, if_pos (by omega)]
    · rw [rollingMean, rollingApply_getElem? mean 200 xs i hix,
        if_neg (by omega)]
    · rw [rollingStd, rollingApply_getElem? sampleStd 200 xs i hix,
        if_neg (by omega)]

/-- Witness for the C7 theorem at a concrete 200-sample flat series, at the
first (undefined) position and at position 199, the first defined one. -/
theorem rolling_stats_alignment_witness :
    ((rollingMean 200 (List.replicate 200 (5:ℚ)))[0]? = some none ∧
      (rollingStd 200 (List.replicate 200 (5:ℚ)))[0]? = some none) ∧
    (rollingMean 200 (List.replicate 200 (5:ℚ)))[199]? =
      some (some (mean (((List.replicate 200 (5:ℚ)).take (199 + 1)).drop
        (199 + 1 - 200)))) :=
  ⟨(rolling_stats_alignment (List.replicate 200 (5:ℚ)) (by decide) 0).1
      (by decide),
    ((rolling_stats_alignment (List.replicate 200 (5:ℚ)) (by decide) 199).2
      (by decide) (by decide)).2.2.1⟩

/-- Witness for the C9 theorem at a concrete errored fetch. -/
theorem failed_run_not_deployed_witness :
    exitCode (Except.error () : Except Unit (List (Option ℚ))) ≠ 0 ∧
    deployIndex (artifactFiles (Except.error () :
      Except Unit (List (Option ℚ)))) = .fallbackErrorPage :=
  ⟨by decide, failed_run_not_deployed (.error ()) (by decide)⟩

end MarketStddev
